import Mathlib

/-!
Shallow embedding of the Ramon-tale-dashboard content pipeline core:
the content planner (src/services/content_planner.py), the daily job
runner (src/scheduler/job_runner.py) and the reporting service
(src/services/reporting.py). Timestamps are modelled as rationals
(float epoch seconds in Python), the stable Python `sorted` as a stable
insertion sort parametrised by the boolean total preorder induced by
the sort key, and I/O collaborators (RSS fetcher, LLM generator,
clock) as explicit function-valued parameters of the run.
-/

/-! ### Data model, src/services/content_planner.py -/

inductive PlanWindow
  | daily
  | weekly
deriving DecidableEq, Repr

structure ContentPlanSlot where
  slot_id : String
  post_type : String
  window : PlanWindow
deriving DecidableEq, Repr

structure NewsItem where
  news_id : String
  headline : String
  is_breaking : Bool
  published_at : Option ℚ
deriving DecidableEq, Repr

structure ContentTask where
  slot_id : String
  post_type : String
  news_id : String
  headline : String
deriving DecidableEq, Repr

/-- `ContentPlanningError` carries the message passed to the raise site. -/
structure ContentPlanningError where
  message : String
deriving DecidableEq, Repr

/-! ### The Python `sorted`, as a stable insertion sort by a boolean preorder -/

/-- Strict order on `Bool` used by Python tuple comparison: `False < True`. -/
def boolLt : Bool → Bool → Bool
  | false, true => true
  | _, _ => false

/-- Comparison of the second key component
`-(item.published_at.timestamp()) if item.published_at else float("inf")`:
`none` stands for `inf`, `some t` for a present timestamp `t` (negated here). -/
def negTsLe : Option ℚ → Option ℚ → Bool
  | none, none => true
  | none, some _ => false
  | some _, none => true
  | some ta, some tb => decide ((-ta) ≤ (-tb))

/-- Lexicographic `≤` on the sort key
`(not item.is_breaking, -(timestamp) if published_at else inf)`
from `ContentPlannerService.create_tasks`. -/
def keyLe (a b : NewsItem) : Bool :=
  if boolLt (!a.is_breaking) (!b.is_breaking) then true
  else if (!a.is_breaking) = (!b.is_breaking) then
    negTsLe a.published_at b.published_at
  else false

/-- Stable insertion of `x` into a sorted list: `x` is placed before the
first element it compares `≤` to, hence after all earlier-inserted elements
with an equal key. -/
def insertSortedBy (le : NewsItem → NewsItem → Bool) (x : NewsItem) :
    List NewsItem → List NewsItem
  | [] => [x]
  | y :: ys => if le x y then x :: y :: ys else y :: insertSortedBy le x ys

/-- Stable sort by the total preorder `le`; `foldr` keeps input order among
key-equal elements, matching the stable CPython `sorted`. -/
def sortNewsBy (le : NewsItem → NewsItem → Bool) (l : List NewsItem) :
    List NewsItem :=
  l.foldr (insertSortedBy le) []

/-- `sorted(news_items, key=lambda item: (not item.is_breaking, ...))`. -/
def sortNews (l : List NewsItem) : List NewsItem :=
  sortNewsBy keyLe l

/-! ### The planner, `ContentPlannerService.create_tasks` -/

/-- `next((item for item in sorted_news if item.news_id not in used_news_ids), None)`. -/
def findUnused (used : List String) : List NewsItem → Option NewsItem
  | [] => none
  | item :: rest =>
    if item.news_id ∈ used then findUnused used rest else some item

/-- The `for slot in plan_slots` loop body of `create_tasks`: each slot takes
the first not-yet-used item of `sorted_news`; a slot with no match is skipped. -/
def assignLoop (sorted_news : List NewsItem) :
    List ContentPlanSlot → List String → List ContentTask
  | [], _ => []
  | slot :: slots, used =>
    match findUnused used sorted_news with
    | none => assignLoop sorted_news slots used
    | some matched =>
      { slot_id := slot.slot_id
        post_type := slot.post_type
        news_id := matched.news_id
        headline := matched.headline } ::
        assignLoop sorted_news slots (matched.news_id :: used)

/-- `ContentPlannerService.create_tasks`. -/
def create_tasks (plan_slots : List ContentPlanSlot) (news_items : List NewsItem) :
    Except ContentPlanningError (List ContentTask) :=
  if plan_slots = [] then
    .error { message := "At least one plan slot is required." }
  else if news_items = [] then
    .error { message := "At least one news item is required." }
  else
    .ok (assignLoop (sortNews news_items) plan_slots [])

/-! ### Spec-side ordering for the refinement claim on the news sort -/

/-- Modelled from the words of the spec (§4.1): breaking items sort before
non-breaking ones; within equal breaking status, by `published_at`
descending, items with no timestamp last; used only to compare against
the key-based ordering of the source. -/
def specLe (a b : NewsItem) : Bool :=
  if a.is_breaking && !b.is_breaking then true
  else if b.is_breaking && !a.is_breaking then false
  else
    match a.published_at, b.published_at with
    | some ta, some tb => decide (tb ≤ ta)
    | some _, none => true
    | none, some _ => false
    | none, none => true

/-- Ordering on news by `published_at` descending alone (missing last),
ignoring `is_breaking`; used for claim C10. -/
def tsOnlyLe (a b : NewsItem) : Bool :=
  negTsLe a.published_at b.published_at

/-! ### Data model, src/scheduler/job_runner.py -/

structure RSSArticle where
  url : String
  title : String
  published_at : Option ℚ
deriving DecidableEq, Repr

structure RSSFetchError where
  message : String
deriving DecidableEq, Repr

inductive ContentType
  | short
  | analytical
  | educational
  | table_number
deriving DecidableEq, Repr

structure TelegramContent where
  lead : String
  body : String
  analysis : String
  cta : String
deriving DecidableEq, Repr

structure ContentGenerationError where
  message : String
deriving DecidableEq, Repr

inductive RecordStatus
  | planned
  | completed
  | failed
deriving DecidableEq, Repr

/-- One JSON object handed to `OutputStore.write`; an `Option` field set to
`none` models a key the writing site leaves out of the dict. -/
structure OutputRecord where
  timestamp : String
  task : ContentTask
  status : RecordStatus
  content : Option TelegramContent := none
  error : Option String := none
  processing_time_seconds : Option ℚ := none
deriving DecidableEq, Repr

structure ContentPlanConfig where
  plan_slots : List ContentPlanSlot
deriving Repr

structure SchedulerConfig where
  feed_urls : List String
  plan : ContentPlanConfig
deriving Repr

/-- External collaborators and clocks of one `run_daily` invocation:
`fetch` is `RSSFetcherService.fetch_latest`, `generate` is
`ContentGeneratorService.generate` (arguments: headline, summary,
key_facts, content_type), `api_key` is
`os.getenv("ECONCONTENT_OPENAI_API_KEY")` (`none` = unset), `now i` the
`datetime.utcnow().isoformat()` string at the write for the i-th task and
`elapsed i` the `time.perf_counter()` difference around the i-th
generation call. -/
structure RunEnv where
  fetch : String → Except RSSFetchError (List RSSArticle)
  api_key : Option String
  generate : String → String → List String → ContentType →
    Except ContentGenerationError TelegramContent
  now : Nat → String
  elapsed : Nat → ℚ

/-- Python truthiness of the `api_key` value in `if not api_key`:
an unset variable and the empty string are both falsy. -/
def apiKeyPresent : Option String → Bool
  | none => false
  | some k => k != ""

/-- The `NewsItem(...)` construction inside the fetch loop of `run_daily`:
`news_id=article.url`, `headline=article.title`, `is_breaking=False`. -/
def articleToNews (a : RSSArticle) : NewsItem :=
  { news_id := a.url
    headline := a.title
    is_breaking := false
    published_at := a.published_at }

/-- The `for feed_url in self._config.feed_urls` loop under the single
`try`: articles accumulate in feed order, and the first `RSSFetchError`
aborts the whole loop. -/
def fetchAll (env : RunEnv) : List String → Except RSSFetchError (List NewsItem)
  | [] => .ok []
  | url :: rest =>
    match env.fetch url with
    | .error e => .error e
    | .ok articles =>
      match fetchAll env rest with
      | .error e => .error e
      | .ok items => .ok (articles.map articleToNews ++ items)

/-- The `planned` record written per task when the API key is missing. -/
def plannedRecord (env : RunEnv) (i : Nat) (task : ContentTask) : OutputRecord :=
  { timestamp := env.now i, task := task, status := .planned }

/-- The `failed` record written when generation raises for the i-th task. -/
def failedRecord (env : RunEnv) (i : Nat) (task : ContentTask)
    (e : ContentGenerationError) : OutputRecord :=
  { timestamp := env.now i
    task := task
    status := .failed
    error := some e.message
    processing_time_seconds := some (env.elapsed i) }

/-- The `completed` record written when generation succeeds for the i-th task. -/
def completedRecord (env : RunEnv) (i : Nat) (task : ContentTask)
    (c : TelegramContent) : OutputRecord :=
  { timestamp := env.now i
    task := task
    status := .completed
    content := some c
    processing_time_seconds := some (env.elapsed i) }

/-- The record the generation loop body appends for the i-th task:
`generator.generate(headline=task.headline, summary=task.headline,
key_facts=[task.headline], content_type=ContentType.short)` wrapped in
`try`/`except ContentGenerationError`. -/
def genRecord (env : RunEnv) (i : Nat) (task : ContentTask) : OutputRecord :=
  match env.generate task.headline task.headline [task.headline] ContentType.short with
  | .error e => failedRecord env i task e
  | .ok c => completedRecord env i task c

/-- The `for task in tasks` generation loop: one record per task, in task
order; a failing task contributes its `failed` record and the loop
continues (`continue`). -/
def generateLoop (env : RunEnv) : List ContentTask → Nat → List OutputRecord
  | [], _ => []
  | task :: rest, i => genRecord env i task :: generateLoop env rest (i + 1)

/-- Observable outcome of one `run_daily` call: the records appended to the
output store in order, whether `create_tasks` was invoked, and how many
generation calls were issued. -/
structure RunResult where
  records : List OutputRecord
  plannerCalled : Bool
  genCalls : Nat
deriving DecidableEq, Repr

/-- `DailyJobRunner.run_daily`: skip when no feed URLs are configured;
abort on a fetch error; abort (after calling the planner) on a planning
error; with no API key write one `planned` record per task; otherwise run
the generation loop. All raised errors are caught inside, so the function
is total. -/
def run_daily (cfg : SchedulerConfig) (env : RunEnv) : RunResult :=
  if cfg.feed_urls = [] then
    { records := [], plannerCalled := false, genCalls := 0 }
  else
    match fetchAll env cfg.feed_urls with
    | .error _ => { records := [], plannerCalled := false, genCalls := 0 }
    | .ok news_items =>
      match create_tasks cfg.plan.plan_slots news_items with
      | .error _ => { records := [], plannerCalled := true, genCalls := 0 }
      | .ok tasks =>
        if apiKeyPresent env.api_key then
          { records := generateLoop env tasks 0
            plannerCalled := true
            genCalls := tasks.length }
        else
          { records := tasks.enum.map (fun p => plannedRecord env p.1 p.2)
            plannerCalled := true
            genCalls := 0 }

/-! ### Data model, src/services/reporting.py -/

/-- The `task` value of a stored record as the reporting code reads it:
`post_type = none` models a missing `post_type` key or a non-string value
(the code guards with `isinstance(post_type, str)`). -/
structure ReportTask where
  post_type : Option String
deriving DecidableEq, Repr

/-- A parsed JSONL record as `get_daily_kpis` consumes it. A field is
`none` when the key is absent or its value has the wrong JSON type
(`isinstance` guards in the code); `task = none` also covers a `task`
value that is not a dict. -/
structure ReportRecord where
  timestamp : Option String
  status : Option String
  task : Option ReportTask
  processing_time_seconds : Option ℚ
deriving DecidableEq, Repr

/-- `ReportingService._record_date`: `None` unless `timestamp` is a string
that parses; `parse` models `datetime.fromisoformat(...).date()` with dates
coded as naturals (`none` = `ValueError`). -/
def record_date (parse : String → Option Nat) (r : ReportRecord) : Option Nat :=
  match r.timestamp with
  | none => none
  | some ts => parse ts

/-- `content_type_distribution[key] = content_type_distribution.get(key, 0) + 1`
on an insertion-ordered association list. -/
def updateCount (k : String) : List (String × Nat) → List (String × Nat)
  | [] => [(k, 1)]
  | (key, n) :: rest =>
    if key = k then (key, n + 1) :: rest else (key, n) :: updateCount k rest

/-- Reading a count back from the distribution (0 when the key is absent). -/
def lookupCount (l : List (String × Nat)) (k : String) : Nat :=
  match l.find? (fun p => p.1 == k) with
  | some p => p.2
  | none => 0

/-- The Python `str.strip()`: drop whitespace from both ends (modelled over
the character list so it evaluates by structural recursion). -/
def pyStrip (s : String) : String :=
  ⟨((s.data.dropWhile Char.isWhitespace).reverse.dropWhile
      Char.isWhitespace).reverse⟩

/-- The distribution key chosen for the task of a completed record:
`post_type.strip()` when `post_type` is a string with non-whitespace
content, else the literal `"unknown"`. -/
def postTypeKey (t : ReportTask) : String :=
  match t.post_type with
  | some s => if pyStrip s ≠ "" then pyStrip s else "unknown"
  | none => "unknown"

/-- Mutable loop state of `get_daily_kpis`. -/
structure KpiAcc where
  total_tasks : Nat
  completed_tasks : Nat
  failed_tasks : Nat
  processing_times : List ℚ
  content_type_distribution : List (String × Nat)
deriving DecidableEq, Repr

/-- One iteration of the `for record in self._iter_records()` loop. -/
def kpiStep (parse : String → Option Nat) (target : Nat) (acc : KpiAcc)
    (r : ReportRecord) : KpiAcc :=
  if record_date parse r ≠ some target then acc
  else
    let acc1 : KpiAcc := { acc with total_tasks := acc.total_tasks + 1 }
    let acc2 : KpiAcc :=
      if r.status = some "completed" then
        { acc1 with completed_tasks := acc1.completed_tasks + 1 }
      else if r.status = some "failed" then
        { acc1 with failed_tasks := acc1.failed_tasks + 1 }
      else acc1
    let acc3 : KpiAcc :=
      match r.processing_time_seconds with
      | some t => { acc2 with processing_times := acc2.processing_times ++ [t] }
      | none => acc2
    if r.status = some "completed" then
      match r.task with
      | some t =>
        { acc3 with content_type_distribution :=
            updateCount (postTypeKey t) acc3.content_type_distribution }
      | none => acc3
    else acc3

structure DailyKPIs where
  date : Nat
  generated_posts : Nat
  failure_rate : ℚ
  average_processing_time_seconds : Option ℚ
  content_type_distribution : List (String × Nat)
  total_tasks : Nat
  failed_tasks : Nat
deriving DecidableEq, Repr

/-- `ReportingService.get_daily_kpis` over the already-parsed records of
the store (floats modelled as exact rationals). -/
def get_daily_kpis (parse : String → Option Nat) (records : List ReportRecord)
    (target_date : Nat) : DailyKPIs :=
  let acc := records.foldl (kpiStep parse target_date)
    { total_tasks := 0, completed_tasks := 0, failed_tasks := 0,
      processing_times := [], content_type_distribution := [] }
  let tcf := acc.completed_tasks + acc.failed_tasks
  { date := target_date
    generated_posts := acc.completed_tasks
    failure_rate := if tcf = 0 then 0 else (acc.failed_tasks : ℚ) / (tcf : ℚ)
    average_processing_time_seconds :=
      if acc.processing_times = [] then none
      else some (acc.processing_times.sum / (acc.processing_times.length : ℚ))
    content_type_distribution := acc.content_type_distribution
    total_tasks := acc.total_tasks
    failed_tasks := acc.failed_tasks }

/-! ### Concrete slots, news, environments and stores used by the witnesses -/

/-- News item A of the worked example in the spec (§8): non-breaking, 10:00
(timestamps coded as minutes of the day). -/
def newsA : NewsItem :=
  { news_id := "A", headline := "hA", is_breaking := false, published_at := some 600 }

/-- News item B of the worked example: breaking, 09:00. -/
def newsB : NewsItem :=
  { news_id := "B", headline := "hB", is_breaking := true, published_at := some 540 }

/-- News item C of the worked example: non-breaking, 11:00. -/
def newsC : NewsItem :=
  { news_id := "C", headline := "hC", is_breaking := false, published_at := some 660 }

def slotS1 : ContentPlanSlot :=
  { slot_id := "s1", post_type := "p", window := .daily }

def slotS2 : ContentPlanSlot :=
  { slot_id := "s2", post_type := "p", window := .daily }

def slotS3 : ContentPlanSlot :=
  { slot_id := "s3", post_type := "p", window := .daily }

def demoSlots : List ContentPlanSlot := [slotS1, slotS2, slotS3]

def demoNews : List NewsItem := [newsA, newsB, newsC]

/-- `True` exactly when `create_tasks` raised `ContentPlanningError`. -/
def isPlanningError (r : Except ContentPlanningError (List ContentTask)) : Bool :=
  match r with
  | .error _ => true
  | .ok _ => false

def demoContent : TelegramContent :=
  { lead := "l", body := "b", analysis := "an", cta := "c" }

/-- Environment whose fetch collaborator always raises. -/
def envFetchFail : RunEnv :=
  { fetch := fun _ => .error { message := "net down" }
    api_key := some "k"
    generate := fun _ _ _ _ => .ok demoContent
    now := fun _ => "2024-01-02T07:00:00"
    elapsed := fun _ => 1 }

def cfgOneFeed : SchedulerConfig :=
  { feed_urls := ["https://feeds.example/rss"], plan := { plan_slots := demoSlots } }

def taskT : ContentTask :=
  { slot_id := "s1", post_type := "p", news_id := "B", headline := "hB" }

/-- Environment whose generation collaborator always raises. -/
def envGenFail : RunEnv :=
  { fetch := fun _ => .ok []
    api_key := some "k"
    generate := fun _ _ _ _ => .error { message := "OpenAI request failed." }
    now := fun _ => "2024-01-02T07:00:00"
    elapsed := fun _ => 2 }

def articleX : RSSArticle :=
  { url := "https://n.example/x", title := "tX", published_at := some 100 }

/-- Environment with a working fetch collaborator and no API key. -/
def envNoKey : RunEnv :=
  { fetch := fun _ => .ok [articleX]
    api_key := none
    generate := fun _ _ _ _ => .ok demoContent
    now := fun _ => "2024-01-02T07:00:00"
    elapsed := fun _ => 1 }

def cfgNoFeeds : SchedulerConfig :=
  { feed_urls := [], plan := { plan_slots := demoSlots } }

/-- Date parser of the demo stores: the string "D1" is day 1. -/
def demoParse : String → Option Nat :=
  fun s => if s = "D1" then some 1 else none

def completedRec : ReportRecord :=
  { timestamp := some "D1"
    status := some "completed"
    task := some { post_type := some "short" }
    processing_time_seconds := some 2 }

def failedRec : ReportRecord :=
  { timestamp := some "D1"
    status := some "failed"
    task := some { post_type := some "short" }
    processing_time_seconds := none }

def demoKpiRecords : List ReportRecord :=
  [completedRec, completedRec, completedRec, failedRec]

/-- A completed record whose post_type has surrounding whitespace. -/
def stripRec : ReportRecord :=
  { timestamp := some "D1"
    status := some "completed"
    task := some { post_type := some " short " }
    processing_time_seconds := none }

/-- Does record `r` contribute a count under key `k` in
`content_type_distribution`? Matching date, status `completed`, a `task`
dict present, and the stripped/defaulted post_type equal to `k`. -/
def countsTowards (parse : String → Option Nat) (target : Nat) (k : String)
    (r : ReportRecord) : Bool :=
  (record_date parse r == some target) &&
  (r.status == some "completed") &&
  (match r.task with
   | some t => postTypeKey t == k
   | none => false)

/-! ### Helper lemmas and claim theorems -/

theorem keyLe_eq_specLe (a b : NewsItem) : keyLe a b = specLe a b := by
  unfold keyLe specLe boolLt negTsLe
  cases hab : a.is_breaking <;> cases hbb : b.is_breaking <;>
    cases ha : a.published_at <;> cases hb : b.published_at <;>
      simp [hab, hbb, ha, hb]

theorem sortNewsBy_cons (le : NewsItem → NewsItem → Bool) (z : NewsItem)
    (zs : List NewsItem) :
    sortNewsBy le (z :: zs) = insertSortedBy le z (sortNewsBy le zs) := rfl

theorem mem_insertSortedBy (le : NewsItem → NewsItem → Bool) (x y : NewsItem)
    (l : List NewsItem) : y ∈ insertSortedBy le x l ↔ y = x ∨ y ∈ l := by
  induction l with
  | nil => simp [insertSortedBy]
  | cons z zs ih =>
    unfold insertSortedBy
    by_cases h : le x z = true
    · simp [h]
    · simp [h, ih]
      tauto

theorem insertSortedBy_congr (le1 le2 : NewsItem → NewsItem → Bool) (x : NewsItem)
    (l : List NewsItem) (h : ∀ b ∈ l, le1 x b = le2 x b) :
    insertSortedBy le1 x l = insertSortedBy le2 x l := by
  induction l with
  | nil => rfl
  | cons z zs ih =>
    unfold insertSortedBy
    rw [h z (by simp)]
    by_cases h2 : le2 x z = true
    · simp [h2]
    · simp [h2]
      exact ih (fun b hb => h b (by simp [hb]))

theorem mem_sortNewsBy (le : NewsItem → NewsItem → Bool) (l : List NewsItem)
    (y : NewsItem) : y ∈ sortNewsBy le l ↔ y ∈ l := by
  induction l with
  | nil => simp [sortNewsBy]
  | cons z zs ih =>
    rw [sortNewsBy_cons, mem_insertSortedBy]
    simp [ih]

theorem sortNewsBy_congr (le1 le2 : NewsItem → NewsItem → Bool)
    (l : List NewsItem) (h : ∀ a ∈ l, ∀ b ∈ l, le1 a b = le2 a b) :
    sortNewsBy le1 l = sortNewsBy le2 l := by
  induction l with
  | nil => rfl
  | cons z zs ih =>
    rw [sortNewsBy_cons, sortNewsBy_cons,
      ih (fun a ha b hb => h a (by simp [ha]) b (by simp [hb]))]
    refine insertSortedBy_congr le1 le2 z (sortNewsBy le2 zs) (fun b hb => ?_)
    exact h z (by simp) b (by simp [(mem_sortNewsBy le2 zs b).mp hb])

theorem sortNews_eq_specSort (l : List NewsItem) :
    sortNews l = sortNewsBy specLe l :=
  sortNewsBy_congr keyLe specLe l (fun a _ b _ => keyLe_eq_specLe a b)

theorem length_insertSortedBy (le : NewsItem → NewsItem → Bool) (x : NewsItem)
    (l : List NewsItem) : (insertSortedBy le x l).length = l.length + 1 := by
  induction l with
  | nil => rfl
  | cons z zs ih =>
    unfold insertSortedBy
    by_cases h : le x z = true
    · simp [h]
    · simp [h, ih]

theorem length_sortNewsBy (le : NewsItem → NewsItem → Bool) (l : List NewsItem) :
    (sortNewsBy le l).length = l.length := by
  induction l with
  | nil => rfl
  | cons z zs ih =>
    rw [sortNewsBy_cons, length_insertSortedBy, ih]
    rfl

theorem findUnused_spec (used : List String) (l : List NewsItem) (item : NewsItem)
    (h : findUnused used l = some item) : item ∈ l ∧ item.news_id ∉ used := by
  induction l with
  | nil => simp [findUnused] at h
  | cons z zs ih =>
    unfold findUnused at h
    by_cases hz : z.news_id ∈ used
    · rw [if_pos hz] at h
      have := ih h
      exact ⟨by simp [this.1], this.2⟩
    · rw [if_neg hz] at h
      cases h
      exact ⟨by simp, hz⟩

theorem assignLoop_length_le_slots (sn : List NewsItem)
    (slots : List ContentPlanSlot) (used : List String) :
    (assignLoop sn slots used).length ≤ slots.length := by
  induction slots generalizing used with
  | nil => simp [assignLoop]
  | cons s ss ih =>
    unfold assignLoop
    cases h : findUnused used sn with
    | none => exact (ih used).trans (Nat.le_succ _)
    | some m => simpa using Nat.succ_le_succ (ih (m.news_id :: used))

theorem assignLoop_ids (sn : List NewsItem) (slots : List ContentPlanSlot)
    (used : List String) (t : ContentTask) (ht : t ∈ assignLoop sn slots used) :
    t.news_id ∈ sn.map (fun i => i.news_id) ∧ t.news_id ∉ used := by
  induction slots generalizing used with
  | nil => simp [assignLoop] at ht
  | cons s ss ih =>
    unfold assignLoop at ht
    cases h : findUnused used sn with
    | none =>
      rw [h] at ht
      exact ih used ht
    | some m =>
      rw [h] at ht
      rcases List.mem_cons.mp ht with rfl | ht2
      · have hm := findUnused_spec used sn m h
        exact ⟨List.mem_map.mpr ⟨m, hm.1, rfl⟩, hm.2⟩
      · have h2 := ih (m.news_id :: used) ht2
        exact ⟨h2.1, fun hu => h2.2 (List.mem_cons_of_mem _ hu)⟩

theorem assignLoop_nodup (sn : List NewsItem) (slots : List ContentPlanSlot)
    (used : List String) :
    ((assignLoop sn slots used).map (fun t => t.news_id)).Nodup := by
  induction slots generalizing used with
  | nil => simp [assignLoop]
  | cons s ss ih =>
    unfold assignLoop
    cases h : findUnused used sn with
    | none => exact ih used
    | some m =>
      simp only [List.map_cons, List.nodup_cons]
      refine ⟨fun hmem => ?_, ih (m.news_id :: used)⟩
      rcases List.mem_map.mp hmem with ⟨t, ht, hid⟩
      have h2 := (assignLoop_ids sn ss (m.news_id :: used) t ht).2
      exact h2 (by rw [hid]; exact List.mem_cons_self _ _)

theorem assignLoop_length_le_news (sn : List NewsItem)
    (slots : List ContentPlanSlot) (used : List String) :
    (assignLoop sn slots used).length ≤ sn.length := by
  have hsub : ((assignLoop sn slots used).map (fun t => t.news_id)) ⊆
      sn.map (fun i => i.news_id) := by
    intro x hx
    rcases List.mem_map.mp hx with ⟨t, ht, rfl⟩
    exact (assignLoop_ids sn slots used t ht).1
  have hnd := assignLoop_nodup sn slots used
  have hlen := ((hnd.subperm hsub)).length_le
  simpa using hlen

/-- C1: for non-empty inputs, `create_tasks` equals the spec-described
algorithm — stable-sort the news by the spec ordering (breaking first,
then `published_at` descending, missing timestamps last, ties by input
order) and let each slot, in input order, take the first unused item; on
the worked example the emitted assignment order is B, C, A. -/
theorem create_tasks_sorts_and_assigns (s : List ContentPlanSlot)
    (n : List NewsItem) (hs : s ≠ []) (hn : n ≠ []) :
    create_tasks s n = .ok (assignLoop (sortNewsBy specLe n) s []) ∧
    create_tasks demoSlots demoNews = .ok
      [{ slot_id := "s1", post_type := "p", news_id := "B", headline := "hB" },
       { slot_id := "s2", post_type := "p", news_id := "C", headline := "hC" },
       { slot_id := "s3", post_type := "p", news_id := "A", headline := "hA" }] := by
  constructor
  · unfold create_tasks
    rw [if_neg hs, if_neg hn, sortNews_eq_specSort]
  · rfl

/-- Witness for C1: the worked example itself, hypotheses discharged. -/
theorem create_tasks_sorts_and_assigns_witness :
    create_tasks demoSlots demoNews = .ok
      [{ slot_id := "s1", post_type := "p", news_id := "B", headline := "hB" },
       { slot_id := "s2", post_type := "p", news_id := "C", headline := "hC" },
       { slot_id := "s3", post_type := "p", news_id := "A", headline := "hA" }] :=
  (create_tasks_sorts_and_assigns demoSlots demoNews (by decide) (by decide)).2

/-- C2: for non-empty inputs `create_tasks` returns normally; its output
has length at most `min` of the input lengths, and the emitted `news_id`s
are pairwise distinct (slots without an unused item are skipped, not an
error). -/
theorem create_tasks_length_and_distinct (s : List ContentPlanSlot)
    (n : List NewsItem) (hs : s ≠ []) (hn : n ≠ []) :
    create_tasks s n = .ok (assignLoop (sortNews n) s []) ∧
    (assignLoop (sortNews n) s []).length ≤ min s.length n.length ∧
    ((assignLoop (sortNews n) s []).map (fun t => t.news_id)).Nodup := by
  refine ⟨?_, ?_, assignLoop_nodup _ _ _⟩
  · unfold create_tasks
    rw [if_neg hs, if_neg hn]
  · refine Nat.le_min.mpr ⟨assignLoop_length_le_slots _ _ _, ?_⟩
    have h := assignLoop_length_le_news (sortNews n) s []
    rwa [sortNews, length_sortNewsBy] at h

/-- Witness for C2 at the worked example. -/
theorem create_tasks_length_and_distinct_witness :
    create_tasks demoSlots demoNews =
      .ok (assignLoop (sortNews demoNews) demoSlots []) ∧
    (assignLoop (sortNews demoNews) demoSlots []).length ≤
      min demoSlots.length demoNews.length ∧
    ((assignLoop (sortNews demoNews) demoSlots []).map
      (fun t => t.news_id)).Nodup :=
  create_tasks_length_and_distinct demoSlots demoNews (by decide) (by decide)

/-- C3: `create_tasks` raises `ContentPlanningError` if and only if at
least one of its two inputs is empty; on non-empty inputs it returns
normally. -/
theorem create_tasks_error_iff (s : List ContentPlanSlot) (n : List NewsItem) :
    isPlanningError (create_tasks s n) = true ↔ (s = [] ∨ n = []) := by
  by_cases hs : s = [] <;> by_cases hn : n = [] <;>
    simp [create_tasks, isPlanningError, hs, hn]

theorem fetchAll_error_of_mem (env : RunEnv) (urls : List String) (url : String)
    (e : RSSFetchError) (hmem : url ∈ urls) (hf : env.fetch url = .error e) :
    ∃ e2, fetchAll env urls = .error e2 := by
  induction urls with
  | nil => simp at hmem
  | cons u rest ih =>
    cases hu : env.fetch u with
    | error e3 =>
      refine ⟨e3, ?_⟩
      unfold fetchAll
      rw [hu]
    | ok arts =>
      rcases List.mem_cons.mp hmem with rfl | hmem2
      · rw [hf] at hu
        cases hu
      · rcases ih hmem2 with ⟨e2, he2⟩
        refine ⟨e2, ?_⟩
        unfold fetchAll
        rw [hu, he2]

/-- C4: if fetching any configured feed raises, `run_daily` aborts the
whole run: no record is appended and neither planning nor generation is
reached. -/
theorem run_daily_fetch_error_aborts (cfg : SchedulerConfig) (env : RunEnv)
    (url : String) (e : RSSFetchError) (hmem : url ∈ cfg.feed_urls)
    (hf : env.fetch url = .error e) :
    (run_daily cfg env).records = [] ∧
    (run_daily cfg env).plannerCalled = false ∧
    (run_daily cfg env).genCalls = 0 := by
  have hne : cfg.feed_urls ≠ [] := by
    intro h
    rw [h] at hmem
    simp at hmem
  rcases fetchAll_error_of_mem env cfg.feed_urls url e hmem hf with ⟨e2, he2⟩
  unfold run_daily
  rw [if_neg hne, he2]
  exact ⟨rfl, rfl, rfl⟩

/-- Witness for C4. -/
theorem run_daily_fetch_error_aborts_witness :
    (run_daily cfgOneFeed envFetchFail).records = [] ∧
    (run_daily cfgOneFeed envFetchFail).plannerCalled = false ∧
    (run_daily cfgOneFeed envFetchFail).genCalls = 0 :=
  run_daily_fetch_error_aborts cfgOneFeed envFetchFail "https://feeds.example/rss"
    { message := "net down" } (by simp [cfgOneFeed]) rfl

theorem generateLoop_eq_enumFrom (env : RunEnv) (tasks : List ContentTask)
    (i : Nat) :
    generateLoop env tasks i =
      (tasks.enumFrom i).map (fun p => genRecord env p.1 p.2) := by
  induction tasks generalizing i with
  | nil => rfl
  | cons t ts ih => simp [generateLoop, List.enumFrom, ih]

/-- C5: the generation stage emits exactly one record per task, in task
order; a task whose generation call raises yields exactly one `failed`
record carrying the error message and the elapsed time, and the loop
continues with the remaining tasks. -/
theorem generation_failure_isolated (env : RunEnv) (tasks : List ContentTask)
    (i : Nat) (task : ContentTask) (e : ContentGenerationError)
    (he : env.generate task.headline task.headline [task.headline]
      ContentType.short = .error e) :
    (generateLoop env tasks 0).length = tasks.length ∧
    generateLoop env tasks 0 = tasks.enum.map (fun p => genRecord env p.1 p.2) ∧
    genRecord env i task =
      { timestamp := env.now i
        task := task
        status := .failed
        content := none
        error := some e.message
        processing_time_seconds := some (env.elapsed i) } := by
  refine ⟨?_, ?_, ?_⟩
  · rw [generateLoop_eq_enumFrom]
    simp [List.enum]
  · rw [generateLoop_eq_enumFrom]
    rfl
  · unfold genRecord
    rw [he]
    rfl

/-- Witness for C5. -/
theorem generation_failure_isolated_witness :
    (generateLoop envGenFail [taskT] 0).length = 1 ∧
    genRecord envGenFail 0 taskT =
      { timestamp := "2024-01-02T07:00:00"
        task := taskT
        status := .failed
        content := none
        error := some "OpenAI request failed."
        processing_time_seconds := some 2 } := by
  have h := generation_failure_isolated envGenFail [taskT] 0 taskT
    { message := "OpenAI request failed." } rfl
  exact ⟨h.1, h.2.2⟩

/-- C6: with no API key configured, `run_daily` appends exactly one
`planned` record per planned task (no content, no error field), performs
no generation call, and returns normally. -/
theorem run_daily_no_api_key (cfg : SchedulerConfig) (env : RunEnv)
    (news : List NewsItem) (tasks : List ContentTask)
    (hne : cfg.feed_urls ≠ [])
    (hf : fetchAll env cfg.feed_urls = .ok news)
    (hp : create_tasks cfg.plan.plan_slots news = .ok tasks)
    (hk : apiKeyPresent env.api_key = false) :
    (run_daily cfg env).records =
      tasks.enum.map (fun p => plannedRecord env p.1 p.2) ∧
    (run_daily cfg env).records.length = tasks.length ∧
    (∀ r ∈ (run_daily cfg env).records,
      r.status = .planned ∧ r.content = none ∧ r.error = none) ∧
    (run_daily cfg env).genCalls = 0 := by
  have hrun : run_daily cfg env =
      { records := tasks.enum.map (fun p => plannedRecord env p.1 p.2)
        plannerCalled := true
        genCalls := 0 } := by
    simp [run_daily, if_neg hne, hf, hp, hk]
  rw [hrun]
  refine ⟨rfl, by simp, ?_, rfl⟩
  intro r hr
  rcases List.mem_map.mp hr with ⟨p, hp2, rfl⟩
  exact ⟨rfl, rfl, rfl⟩

/-- Witness for C6. -/
theorem run_daily_no_api_key_witness :
    (run_daily cfgOneFeed envNoKey).records.length = 1 ∧
    (run_daily cfgOneFeed envNoKey).genCalls = 0 := by
  have h := run_daily_no_api_key cfgOneFeed envNoKey
    [articleToNews articleX]
    [{ slot_id := "s1", post_type := "p",
       news_id := "https://n.example/x", headline := "tX" }]
    (by simp [cfgOneFeed]) rfl rfl rfl
  exact ⟨h.2.1, h.2.2.2⟩

/-- C9: with an empty feed-URL list, `run_daily` returns at once: nothing
is appended, the planner is never invoked, so no planning error can
arise. -/
theorem run_daily_no_feeds (cfg : SchedulerConfig) (env : RunEnv)
    (h : cfg.feed_urls = []) :
    run_daily cfg env =
      { records := [], plannerCalled := false, genCalls := 0 } := by
  unfold run_daily
  rw [if_pos h]

/-- Witness for C9. -/
theorem run_daily_no_feeds_witness :
    run_daily cfgNoFeeds envNoKey =
      { records := [], plannerCalled := false, genCalls := 0 } :=
  run_daily_no_feeds cfgNoFeeds envNoKey rfl

theorem fetchAll_not_breaking (env : RunEnv) (urls : List String)
    (items : List NewsItem) (hf : fetchAll env urls = .ok items) :
    ∀ it ∈ items, it.is_breaking = false := by
  induction urls generalizing items with
  | nil =>
    unfold fetchAll at hf
    cases hf
    simp
  | cons u rest ih =>
    unfold fetchAll at hf
    cases hu : env.fetch u with
    | error e =>
      rw [hu] at hf
      cases hf
    | ok arts =>
      rw [hu] at hf
      cases hr : fetchAll env rest with
      | error e =>
        rw [hr] at hf
        cases hf
      | ok tailItems =>
        rw [hr] at hf
        cases hf
        intro it hit
        rcases List.mem_append.mp hit with hmem | hmem
        · rcases List.mem_map.mp hmem with ⟨a, _, rfl⟩
          rfl
        · exact ih tailItems hr it hmem

/-- C10: every news item `run_daily` builds from a fetched article has
`is_breaking = False`, so on the lists the daily pipeline feeds to the
planner the sort coincides with ordering by `published_at` descending
(missing timestamps last) alone. -/
theorem run_daily_news_never_breaking (env : RunEnv) (urls : List String)
    (items : List NewsItem) (hf : fetchAll env urls = .ok items) :
    (∀ it ∈ items, it.is_breaking = false) ∧
    sortNews items = sortNewsBy tsOnlyLe items := by
  have hb := fetchAll_not_breaking env urls items hf
  refine ⟨hb, ?_⟩
  unfold sortNews
  refine sortNewsBy_congr keyLe tsOnlyLe items (fun a ha b hbm => ?_)
  simp [keyLe, tsOnlyLe, boolLt, hb a ha, hb b hbm]

/-- Witness for C10. -/
theorem run_daily_news_never_breaking_witness :
    sortNews [articleToNews articleX] =
      sortNewsBy tsOnlyLe [articleToNews articleX] :=
  (run_daily_news_never_breaking envNoKey ["https://feeds.example/rss"]
    [articleToNews articleX] rfl).2

/-- C7: `failure_rate` equals failed / (completed + failed) over the
records matching the date, is exactly 0 when that denominator is zero,
and is 1/4 on a day with 3 completed and 1 failed record. -/
theorem failure_rate_formula (parse : String → Option Nat)
    (records : List ReportRecord) (target : Nat) :
    ((get_daily_kpis parse records target).generated_posts +
        (get_daily_kpis parse records target).failed_tasks = 0 →
      (get_daily_kpis parse records target).failure_rate = 0) ∧
    ((get_daily_kpis parse records target).generated_posts +
        (get_daily_kpis parse records target).failed_tasks ≠ 0 →
      (get_daily_kpis parse records target).failure_rate =
        ((get_daily_kpis parse records target).failed_tasks : ℚ) /
          (((get_daily_kpis parse records target).generated_posts : ℚ) +
            ((get_daily_kpis parse records target).failed_tasks : ℚ))) ∧
    (get_daily_kpis demoParse demoKpiRecords 1).failure_rate = 1 / 4 := by
  have h1 : (demoKpiRecords.foldl (kpiStep demoParse 1)
      { total_tasks := 0, completed_tasks := 0, failed_tasks := 0,
        processing_times := [], content_type_distribution := [] }).completed_tasks = 3 := by
    decide
  have h2 : (demoKpiRecords.foldl (kpiStep demoParse 1)
      { total_tasks := 0, completed_tasks := 0, failed_tasks := 0,
        processing_times := [], content_type_distribution := [] }).failed_tasks = 1 := by
    decide
  refine ⟨?_, ?_, ?_⟩
  case refine_3 =>
    simp only [get_daily_kpis, h1, h2]
    norm_num
  · intro h
    simp only [get_daily_kpis] at h ⊢
    rw [if_pos h]
  · intro h
    simp only [get_daily_kpis] at h ⊢
    rw [if_neg h]
    push_cast
    ring

/-- Witness for C7: a store with no completed and no failed record has
failure rate exactly 0. -/
theorem failure_rate_formula_witness :
    (get_daily_kpis demoParse [] 1).failure_rate = 0 :=
  (failure_rate_formula demoParse [] 1).1 (by decide)

/-- C8 counterexample: a matching completed record with the non-blank
post_type " short " is counted under the stripped key "short", not under
the raw value " short " as the claim states. -/
theorem content_type_distribution_strip_counterexample :
    (get_daily_kpis demoParse [stripRec] 1).generated_posts = 1 ∧
    lookupCount ((get_daily_kpis demoParse [stripRec] 1).content_type_distribution)
      " short " = 0 ∧
    lookupCount ((get_daily_kpis demoParse [stripRec] 1).content_type_distribution)
      "short" = 1 := by
  decide

theorem lookupCount_cons (key : String) (n : Nat) (ps : List (String × Nat))
    (k : String) :
    lookupCount ((key, n) :: ps) k = if key = k then n else lookupCount ps k := by
  by_cases h : key = k
  · subst h
    simp [lookupCount, List.find?]
  · have hb : (key == k) = false := beq_eq_false_iff_ne.mpr h
    simp [lookupCount, List.find?, hb, h]

theorem lookupCount_updateCount (l : List (String × Nat)) (k k0 : String) :
    lookupCount (updateCount k0 l) k =
      lookupCount l k + (if k0 = k then 1 else 0) := by
  induction l with
  | nil =>
    rw [updateCount, lookupCount_cons]
    by_cases h : k0 = k <;> simp [h, lookupCount]
  | cons p ps ih =>
    obtain ⟨key, n⟩ := p
    rw [updateCount]
    by_cases hk : key = k0
    · subst hk
      rw [if_pos rfl, lookupCount_cons, lookupCount_cons]
      by_cases h : key = k <;> simp [h]
    · rw [if_neg hk, lookupCount_cons, lookupCount_cons, ih]
      by_cases h : key = k
      · have h2 : k0 ≠ k := fun he => hk (h.trans he.symm)
        simp [h, h2]
      · simp [h]

theorem kpiStep_distribution (parse : String → Option Nat) (target : Nat)
    (k : String) (acc : KpiAcc) (r : ReportRecord) :
    lookupCount (kpiStep parse target acc r).content_type_distribution k =
      lookupCount acc.content_type_distribution k +
        (if countsTowards parse target k r then 1 else 0) := by
  by_cases hd : record_date parse r = some target
  · have hbeq : (record_date parse r == some target) = true := beq_iff_eq.mpr hd
    by_cases hs : r.status = some "completed"
    · cases ht : r.task with
      | none =>
        cases hpt : r.processing_time_seconds <;>
          simp [kpiStep, countsTowards, hd, hbeq, hs, ht, hpt]
      | some t =>
        cases hpt : r.processing_time_seconds <;>
          by_cases hk : postTypeKey t = k <;>
            simp [kpiStep, countsTowards, hd, hbeq, hs, ht, hpt, hk,
              lookupCount_updateCount]
    · by_cases hf2 : r.status = some "failed" <;>
        cases hpt : r.processing_time_seconds <;>
          simp [kpiStep, countsTowards, hd, hbeq, hs, hf2, hpt]
  · have hbeq : (record_date parse r == some target) = false :=
      beq_eq_false_iff_ne.mpr hd
    simp [kpiStep, countsTowards, hd, hbeq]

theorem foldl_distribution (parse : String → Option Nat) (target : Nat)
    (k : String) (records : List ReportRecord) (acc : KpiAcc) :
    lookupCount
        ((records.foldl (kpiStep parse target) acc).content_type_distribution) k =
      lookupCount acc.content_type_distribution k +
        records.countP (countsTowards parse target k) := by
  induction records generalizing acc with
  | nil => simp
  | cons r rs ih =>
    rw [List.foldl_cons, List.countP_cons, ih, kpiStep_distribution]
    by_cases h : countsTowards parse target k r
    · simp [h]
      omega
    · simp [h]

/-- C8 (amended): `content_type_distribution` counts exactly the matching
`completed` records whose `task` field is an object; each contributes one
count, under the whitespace-stripped `post_type` when that is a string
with non-whitespace content, and under the literal key `"unknown"`
otherwise; records with any other status contribute nothing. -/
theorem content_type_distribution_counts (parse : String → Option Nat)
    (records : List ReportRecord) (target : Nat) (k : String) :
    lookupCount
        ((get_daily_kpis parse records target).content_type_distribution) k =
      records.countP (countsTowards parse target k) := by
  simp only [get_daily_kpis]
  rw [foldl_distribution]
  simp [lookupCount]
